import Mathlib

/-!
Write shenanigans: extending a file by seek-then-write and by positioned write.

A verification development for the two probe programs under `mount/`:

* `write shenanigans-sus.c`: `open` (create, truncate), `lseek(fd, 4, SEEK_CUR)`,
  `write(fd, "test", 4)`, `close(fd)`;
* `write shenanigans-9.c`: `create("testfile", ORDWR, 0754)`, `pwrite(fd, "test", 4, 4)`.

The programs are embedded as pure functions on an explicit `World` (file contents,
descriptor table, standard output and a log of the system calls made).  The system
calls themselves are library code; they are modelled after the Single UNIX
Specification (and the Plan 9 manual for `create`/`pwrite`), with every way a call can
fail that the model does not track (missing directories, read-only file systems,
I/O errors) represented by an injected fault.  Permission bits of files are tracked,
since `open` with `O_CREAT` sets them and a later `open` is subject to them.
-/

namespace WriteShenanigans

/-! ## Bytes, C strings and buffers -/

/-- A byte, kept as a natural number. -/
abbrev Byte := Nat

/-- The bytes of a C string, without the terminating NUL. -/
abbrev CString := List Byte

/-- The bytes of an ASCII string literal. -/
def cstr (s : String) : CString := s.toList.map Char.toNat

/-- The buffer size, `#define pathBufferSize 1024`. -/
def pathBufferSize : Nat := 1024

/-- The C string held in a buffer: the bytes before the first NUL. -/
def cstring (buf : List Byte) : CString := buf.takeWhile (fun b => b != 0)

/-- C `strncpy(dest, src, n)`: exactly `n` bytes of `dest` are written, the first
`min n (strlen src)` from `src` and the rest NUL padding. -/
def strncpy (dest : List Byte) (src : CString) (n : Nat) : List Byte :=
  src.take n ++ List.replicate (n - src.length) 0 ++ dest.drop n

/-- C `strcpy(dest, src)`: the bytes of `src` and its terminating NUL are written. -/
def strcpy (dest : List Byte) (src : CString) : List Byte :=
  src ++ [0] ++ dest.drop (src.length + 1)

/-! ## The world -/

/-- The `open` flags the program uses. -/
inductive OFlag where
  | O_RDWR
  | O_CREAT
  | O_TRUNC
  deriving DecidableEq, Repr

/-- The `whence` argument of `lseek`. -/
inductive Whence where
  | SEEK_SET
  | SEEK_CUR
  | SEEK_END
  deriving DecidableEq, Repr

/-- An argument of a `printf`/`print` call. -/
inductive Arg where
  | str (s : CString)
  | int (n : Int)
  deriving DecidableEq, Repr

/-- One `printf`/`print` call: the format string and its arguments. -/
structure Output where
  fmt : String
  args : List Arg
  deriving DecidableEq, Repr

/-- A system call as made by a program, with the value it returned. -/
inductive Call where
  | open (path : CString) (flags : List OFlag) (ret : Int)
  | create (name : CString) (perm : Nat) (ret : Int)
  | lseek (fd : Int) (offset : Int) (whence : Whence) (ret : Int)
  | write (fd : Int) (data : List Byte) (nbyte : Nat) (ret : Int)
  | pwrite (fd : Int) (data : List Byte) (nbyte : Nat) (offset : Int) (ret : Int)
  | close (fd : Int) (ret : Int)
  deriving DecidableEq, Repr

/-- An open file description: the file it refers to, its cursor and whether it was
opened for writing. -/
structure OpenFile where
  path : CString
  offset : Nat
  writable : Bool
  deriving DecidableEq, Repr

/-- The state the programs act on. -/
structure World where
  /-- content of each existing regular file -/
  files : CString → Option (List Byte)
  /-- permission bits of each existing file -/
  modes : CString → Nat
  /-- permission bits a newly created file may keep (the complement of the umask) -/
  permMask : Nat
  /-- the value `open` picks up as its third argument when the caller passes none -/
  strayArg : Nat
  /-- whether the process may open files regardless of their permission bits -/
  privileged : Bool
  /-- descriptor table -/
  fds : Nat → Option OpenFile
  /-- number of slots in the descriptor table -/
  openMax : Nat
  /-- what has been printed, oldest first -/
  stdout : List Output
  /-- the system calls made, oldest first -/
  calls : List Call

/-- Failures decided by the environment (read-only location, I/O error,
non-seekable file, ...), one switch per kind of call. -/
structure Faults where
  openFails : Bool
  lseekFails : Bool
  writeFails : Bool
  deriving DecidableEq, Repr

/-- Point update of a table. -/
def upd {α β : Type} [DecidableEq α] (f : α → β) (a : α) (b : β) : α → β :=
  fun x => if x = a then b else f x

/-- The lowest free slot of the descriptor table, if any. -/
def lowestFree (fds : Nat → Option OpenFile) (limit : Nat) : Option Nat :=
  (List.range limit).find? (fun n => (fds n).isNone)

/-- The open file description behind a descriptor value. -/
def getFd (w : World) (fd : Int) : Option OpenFile :=
  if fd < 0 then none else w.fds fd.toNat

/-- Size of the file at `path` (0 when there is none). -/
def fileSize (w : World) (path : CString) : Nat :=
  ((w.files path).getD []).length

/-- Append a call to the log. -/
def logCall (w : World) (c : Call) : World :=
  { w with calls := w.calls ++ [c] }

/-- C `printf(fmt, args...)` and Plan 9 `print`: the call is appended to standard output. -/
def printf (w : World) (fmt : String) (args : List Arg) : World :=
  { w with stdout := w.stdout ++ [⟨fmt, args⟩] }

/-! ## System calls -/

/-- Whether the process, owner of its files, may open the existing file at `path`
with the given flags: the owner read bit is needed, and the owner write bit as well
for `O_RDWR`. -/
def mayOpen (w : World) (path : CString) (flags : List OFlag) : Bool :=
  w.privileged ||
    (if OFlag.O_RDWR ∈ flags then w.modes path &&& 0o600 == 0o600
     else w.modes path &&& 0o400 == 0o400)

/-- What a successful `open`/`create` decides: the descriptor, the content the file
has afterwards and its permission bits.  A file that does not exist is created with
the bits of `mode` that `permMask` lets through; the bits given at creation do not
restrict the descriptor being returned.  An existing file keeps its bits and can be
opened only if they allow it.  `none` is failure. -/
def openResult (flt : Faults) (w : World) (path : CString) (flags : List OFlag)
    (mode : Nat) : Option (Nat × List Byte × Nat) :=
  if flt.openFails || path.isEmpty then none
  else
    match lowestFree w.fds w.openMax, w.files path with
    | none, _ => none
    | some fd, none =>
      if OFlag.O_CREAT ∈ flags then some (fd, [], mode &&& w.permMask) else none
    | some fd, some old =>
      if mayOpen w path flags then
        some (fd, if OFlag.O_TRUNC ∈ flags then [] else old, w.modes path)
      else none

/-- The world after a successful `open`/`create` (without the log entry). -/
def installFd (w : World) (path : CString) (fd : Nat) (content : List Byte)
    (mode : Nat) (writable : Bool) : World :=
  { w with files := upd w.files path (some content),
           modes := upd w.modes path mode,
           fds := upd w.fds fd (some ⟨path, 0, writable⟩) }

/-- POSIX `open(path, flags)`, called with two arguments as `main` does: returns the
lowest free descriptor, with cursor 0, creating the file when `O_CREAT` is given and
it does not exist and truncating it when `O_TRUNC` is given; returns -1 and changes
nothing on failure.  With `O_CREAT`, `open` reads a third argument for the
permission bits of the new file; none is passed, so it gets `strayArg`. -/
def sys_open (flt : Faults) (w : World) (path : CString) (flags : List OFlag) :
    World × Int :=
  match openResult flt w path flags w.strayArg with
  | none => (logCall w (Call.open path flags (-1)), -1)
  | some (fd, content, mode) =>
    (logCall (installFd w path fd content mode (decide (OFlag.O_RDWR ∈ flags)))
      (Call.open path flags fd), fd)

/-- Plan 9 `create(name, ORDWR, perm)`: creates the file with permissions `perm`, or
truncates an existing one, and opens it for reading and writing; returns -1 on
failure. -/
def create (flt : Faults) (w : World) (name : CString) (perm : Nat) : World × Int :=
  match openResult flt w name [OFlag.O_RDWR, OFlag.O_CREAT, OFlag.O_TRUNC] perm with
  | none => (logCall w (Call.create name perm (-1)), -1)
  | some (fd, content, mode) =>
    (logCall (installFd w name fd content mode true) (Call.create name perm fd), fd)

/-- The cursor a successful `lseek` sets, `none` on failure. -/
def lseekResult (flt : Faults) (w : World) (fd : Int) (offset : Int) (whence : Whence) :
    Option (OpenFile × Nat) :=
  if flt.lseekFails then none
  else
    match getFd w fd with
    | none => none
    | some f =>
      let base : Int :=
        match whence with
        | Whence.SEEK_SET => 0
        | Whence.SEEK_CUR => f.offset
        | Whence.SEEK_END => fileSize w f.path
      if base + offset < 0 then none else some (f, (base + offset).toNat)

/-- POSIX `lseek(fd, offset, whence)`: sets the cursor and returns it.  The cursor
may be set beyond the end of the file; the file itself is not changed.  Returns -1
and leaves the cursor alone on failure. -/
def sys_lseek (flt : Faults) (w : World) (fd : Int) (offset : Int) (whence : Whence) :
    World × Int :=
  match lseekResult flt w fd offset whence with
  | none => (logCall w (Call.lseek fd offset whence (-1)), -1)
  | some (f, pos) =>
    (logCall { w with fds := upd w.fds fd.toNat (some { f with offset := pos }) }
      (Call.lseek fd offset whence pos), pos)

/-- File content after `data` is written at offset `off`: a gap between the old end
of file and `off` reads as zero bytes. -/
def writeAt (content : List Byte) (off : Nat) (data : List Byte) : List Byte :=
  content.take off ++ List.replicate (off - content.length) 0 ++ data ++
    content.drop (off + data.length)

/-- The description a `write`/`pwrite` goes through, `none` when the call fails. -/
def writeTarget (flt : Faults) (w : World) (fd : Int) : Option OpenFile :=
  if flt.writeFails then none
  else
    match getFd w fd with
    | none => none
    | some f => if f.writable then some f else none

/-- POSIX `write(fd, buf, nbyte)`: the first `nbyte` bytes of `buf` are written at
the cursor, which advances by the count returned.  The target is a regular file
with room for the data, so a call that succeeds transfers all `nbyte` bytes (no
short write).  Returns -1 and changes nothing on failure. -/
def sys_write (flt : Faults) (w : World) (fd : Int) (buf : List Byte) (nbyte : Nat) :
    World × Int :=
  match writeTarget flt w fd with
  | none => (logCall w (Call.write fd (buf.take nbyte) nbyte (-1)), -1)
  | some f =>
    let data := buf.take nbyte
    (logCall
      { w with files := upd w.files f.path
                 (some (writeAt ((w.files f.path).getD []) f.offset data)),
               fds := upd w.fds fd.toNat
                 (some { f with offset := f.offset + data.length }) }
      (Call.write fd data nbyte data.length), data.length)

/-- Positioned write `pwrite(fd, buf, nbyte, offset)`: as `write`, but at the given offset and
without reading or moving the cursor. -/
def sys_pwrite (flt : Faults) (w : World) (fd : Int) (buf : List Byte) (nbyte : Nat)
    (offset : Int) : World × Int :=
  match (if offset < 0 then none else writeTarget flt w fd) with
  | none => (logCall w (Call.pwrite fd (buf.take nbyte) nbyte offset (-1)), -1)
  | some f =>
    let data := buf.take nbyte
    (logCall
      { w with files := upd w.files f.path
                 (some (writeAt ((w.files f.path).getD []) offset.toNat data)) }
      (Call.pwrite fd data nbyte offset data.length), data.length)

/-- POSIX `close(fd)`: frees the descriptor; -1 when it is not open. -/
def sys_close (w : World) (fd : Int) : World × Int :=
  match getFd w fd with
  | none => (logCall w (Call.close fd (-1)), -1)
  | some _ => (logCall { w with fds := upd w.fds fd.toNat none } (Call.close fd 0), 0)

/-! ## `write shenanigans-sus.c` -/

/-- Local variables of `main` together with the world. -/
structure Frame where
  w : World
  /-- The variable `int fd`. -/
  fd : Int
  /-- the value `lseek` returned (the program discards it) -/
  pos : Int
  /-- The variable `int written`. -/
  written : Int

/-- Lines 12-20: the path buffer after the environment lookup. -/
def pathTarg (getenv : CString → Option CString) : List Byte :=
  let buf := List.replicate pathBufferSize 0
  match getenv (cstr "TEST_PATH_TARGET") with
  | some pPtr => strncpy buf pPtr (pathBufferSize - 1)
  | none => strcpy buf (cstr "testfile")

/-- Lines 12-23: up to and including `open`. -/
def mainAfterOpen (getenv : CString → Option CString) (flt : Faults) (w : World) :
    Frame :=
  let path := cstring (pathTarg getenv)
  let w := printf w "Create, Truncate, and Open %s...\n" [Arg.str path]
  let r := sys_open flt w path [OFlag.O_RDWR, OFlag.O_CREAT, OFlag.O_TRUNC]
  ⟨r.1, r.2, 0, 0⟩

/-- Line 24: `lseek(fd, 4, SEEK_CUR);` -/
def mainAfterLseek (getenv : CString → Option CString) (flt : Faults) (w : World) :
    Frame :=
  let s := mainAfterOpen getenv flt w
  let r := sys_lseek flt s.w s.fd 4 Whence.SEEK_CUR
  { s with w := r.1, pos := r.2 }

/-- Line 25: `int written = write(fd, "test", 4);` -/
def mainAfterWrite (getenv : CString → Option CString) (flt : Faults) (w : World) :
    Frame :=
  let s := mainAfterLseek getenv flt w
  let r := sys_write flt s.w s.fd (cstr "test" ++ [0]) 4
  { s with w := r.1, written := r.2 }

/-- The whole of `main`: lines 26-27 print the count and close the descriptor. -/
def main (getenv : CString → Option CString) (flt : Faults) (w : World) : World :=
  let s := mainAfterWrite getenv flt w
  let w := printf s.w "Wrote %d\n" [Arg.int s.written]
  (sys_close w s.fd).1

/-! ## `write shenanigans-9.c` -/

/-- Line 8: `int fd = create("testfile", ORDWR, 0754);` -/
def main9AfterCreate (flt : Faults) (w : World) : Frame :=
  let r := create flt w (cstr "testfile") 0o754
  ⟨r.1, r.2, 0, 0⟩

/-- Line 16: `long written = pwrite(fd, "test", 4, 4);` -/
def main9AfterPwrite (flt : Faults) (w : World) : Frame :=
  let s := main9AfterCreate flt w
  let r := sys_pwrite flt s.w s.fd (cstr "test" ++ [0]) 4 4
  { s with w := r.1, written := r.2 }

/-- The whole of the Plan 9 `main`: line 17 prints the count; there is no `close`. -/
def main9 (flt : Faults) (w : World) : World :=
  let s := main9AfterPwrite flt w
  printf s.w "wrote: %d\n" [Arg.int s.written]


/-! ## Concrete worlds -/

/-- No injected failure. -/
def noFaults : Faults := ⟨false, false, false⟩

/-- An environment in which no variable is set. -/
def envUnset : CString → Option CString := fun _ => none

/-- An environment in which `TEST_PATH_TARGET` has the value `v`. -/
def envSet (v : CString) : CString → Option CString :=
  fun name => if name = cstr "TEST_PATH_TARGET" then some v else none

/-- A world without files in which only the three standard descriptors are open,
for an unprivileged process with umask 022.  The stray third argument of `open`
is 0, so a file `open` creates gets mode 000. -/
def freshWorld : World :=
  { files := fun _ => none,
    modes := fun _ => 0o644,
    permMask := 0o755,
    strayArg := 0,
    privileged := false,
    fds := fun n => if n < 3 then some ⟨cstr "/dev/tty", 0, true⟩ else none,
    openMax := 16,
    stdout := [],
    calls := [] }

/-- The world of `freshWorld` with a file of the given content, mode 644, at `path`. -/
def worldWith (path : CString) (content : List Byte) : World :=
  { freshWorld with files := upd freshWorld.files path (some content) }

/-- The world of `freshWorld` with another value as stray third argument of `open`. -/
def worldWithStray (stray : Nat) : World :=
  { freshWorld with strayArg := stray }

/-! ## Reading the result back -/

/-- The flags `main` passes to `open`. -/
def mainFlags : List OFlag := [OFlag.O_RDWR, OFlag.O_CREAT, OFlag.O_TRUNC]

/-- The world in which the cursor of descriptor `fd` stands at `c`. -/
def setCursor (w : World) (fd : Int) (c : Nat) : World :=
  { w with
    fds := upd w.fds fd.toNat ((w.fds fd.toNat).map (fun f => { f with offset := c })) }

/-- The message `main` prints before `open`. -/
def createMsg (getenv : CString → Option CString) : Output :=
  ⟨"Create, Truncate, and Open %s...\n", [Arg.str (cstring (pathTarg getenv))]⟩

/-- The file both programs are expected to leave: `0000 0000 7465 7374`. -/
def expectedBytes : List Byte := [0, 0, 0, 0, 0x74, 0x65, 0x73, 0x74]

/-! ## Basic facts about the model -/

theorem cstr_test : cstr "test" = [116, 101, 115, 116] := by decide

theorem cstr_testfile : cstr "testfile" = [116, 101, 115, 116, 102, 105, 108, 101] := by
  decide

@[simp] theorem upd_same {α β : Type} [DecidableEq α] (f : α → β) (a : α) (b : β) :
    upd f a b a = b := by
  simp [upd]

theorem upd_other {α β : Type} [DecidableEq α] (f : α → β) (a x : α) (b : β)
    (h : x ≠ a) : upd f a b x = f x := by
  simp [upd, h]

@[simp] theorem getFd_natCast (w : World) (n : Nat) : getFd w (n : Int) = w.fds n := by
  simp [getFd]

theorem getFd_neg_one (w : World) : getFd w (-1) = none := by
  simp [getFd]

/-- With the flags of `main`, a successful `open` leaves the file empty. -/
theorem openResult_content (flt : Faults) (w : World) (path : CString) (mode fd : Nat)
    (c : List Byte) (m : Nat) (h : openResult flt w path mainFlags mode = some (fd, c, m)) :
    c = [] := by
  unfold openResult at h
  split at h
  · cases h
  · split at h
    · cases h
    · simp [mainFlags] at h
      exact h.2.1
    · split at h
      · simp [mainFlags] at h
        exact h.2.1
      · cases h

/-- The two ways `open` with the flags of `main` can end. -/
theorem sys_open_cases (flt : Faults) (w : World) (path : CString) :
    (∃ fd m : Nat, sys_open flt w path mainFlags =
        (logCall (installFd w path fd [] m true) (Call.open path mainFlags fd), (fd : Int))) ∨
      sys_open flt w path mainFlags = (logCall w (Call.open path mainFlags (-1)), -1) := by
  unfold sys_open
  cases h : openResult flt w path mainFlags w.strayArg with
  | none => right; rfl
  | some r =>
    obtain ⟨fd, c, m⟩ := r
    have hc := openResult_content flt w path w.strayArg fd c m h
    subst hc
    left
    exact ⟨fd, m, by simp [mainFlags]⟩

/-- The two ways `create` can end. -/
theorem create_cases (flt : Faults) (w : World) (name : CString) (perm : Nat) :
    (∃ fd m : Nat, create flt w name perm =
        (logCall (installFd w name fd [] m true) (Call.create name perm fd), (fd : Int))) ∨
      create flt w name perm = (logCall w (Call.create name perm (-1)), -1) := by
  unfold create
  cases h : openResult flt w name [OFlag.O_RDWR, OFlag.O_CREAT, OFlag.O_TRUNC] perm with
  | none => right; rfl
  | some r =>
    obtain ⟨fd, c, m⟩ := r
    have hc := openResult_content flt w name perm fd c m h
    subst hc
    left
    exact ⟨fd, m, rfl⟩

/-! ## The successful runs -/

/-- A run of `main` in which `open`, `lseek` and `write` succeed. -/
theorem main_ok (getenv : CString → Option CString) (flt : Faults) (w : World)
    (hopen : (mainAfterOpen getenv flt w).fd ≠ -1)
    (hseek : (mainAfterLseek getenv flt w).pos ≠ -1)
    (hwrite : (mainAfterWrite getenv flt w).written ≠ -1) :
    (mainAfterWrite getenv flt w).written = 4 ∧
    (main getenv flt w).stdout = w.stdout ++ [createMsg getenv, ⟨"Wrote %d\n", [Arg.int 4]⟩] ∧
    (main getenv flt w).files (cstring (pathTarg getenv)) = some expectedBytes ∧
    ∀ q, q ≠ cstring (pathTarg getenv) → (main getenv flt w).files q = w.files q := by
  have hfl : [OFlag.O_RDWR, OFlag.O_CREAT, OFlag.O_TRUNC] = mainFlags := rfl
  rcases sys_open_cases flt (printf w "Create, Truncate, and Open %s...\n"
    [Arg.str (cstring (pathTarg getenv))]) (cstring (pathTarg getenv)) with ⟨fd, m, h⟩ | h
  · simp only [main, mainAfterWrite, mainAfterLseek, mainAfterOpen, hfl, h]
      at hopen hseek hwrite ⊢
    cases hs : flt.lseekFails <;> cases hw : flt.writeFails <;>
      simp [sys_lseek, lseekResult, sys_write, writeTarget, sys_close, logCall, installFd,
        printf, hs, hw, cstr_test, writeAt, getFd_neg_one, createMsg, expectedBytes]
        at hopen hseek hwrite ⊢
    intro q hq
    simp [upd, hq]
  · simp [mainAfterOpen, hfl, h] at hopen

/-- A run of the Plan 9 `main` in which `create` and `pwrite` succeed. -/
theorem main9_ok (flt : Faults) (w : World)
    (hcreate : (main9AfterCreate flt w).fd ≠ -1)
    (hpwrite : (main9AfterPwrite flt w).written ≠ -1) :
    (main9AfterPwrite flt w).written = 4 ∧
    (main9 flt w).stdout = w.stdout ++ [⟨"wrote: %d\n", [Arg.int 4]⟩] ∧
    (main9 flt w).files (cstr "testfile") = some expectedBytes ∧
    ∀ q, q ≠ cstr "testfile" → (main9 flt w).files q = w.files q := by
  rcases create_cases flt w (cstr "testfile") 0o754 with ⟨fd, m, h⟩ | h
  · simp only [main9, main9AfterPwrite, main9AfterCreate, h] at hcreate hpwrite ⊢
    cases hw : flt.writeFails <;>
      simp [sys_pwrite, writeTarget, logCall, installFd, printf, hw, cstr_test, writeAt,
        expectedBytes] at hcreate hpwrite ⊢
    intro q hq
    simp [upd, hq]
  · simp [main9AfterCreate, h] at hcreate

/-- C1. Seek-then-write program: in a run in which `open`, `lseek` and `write` all
succeed (whatever the target held before, so in particular from an empty target),
`write` reports 4 transferred bytes, that count is what the program prints, and the
final file has size 8 with bytes `00 00 00 00 74 65 73 74`. -/
theorem C1_seek_then_write_result (getenv : CString → Option CString) (flt : Faults)
    (w : World)
    (hopen : (mainAfterOpen getenv flt w).fd ≠ -1)
    (hseek : (mainAfterLseek getenv flt w).pos ≠ -1)
    (hwrite : (mainAfterWrite getenv flt w).written ≠ -1) :
    (mainAfterWrite getenv flt w).written = 4 ∧
    (main getenv flt w).stdout =
      w.stdout ++ [createMsg getenv, ⟨"Wrote %d\n", [Arg.int 4]⟩] ∧
    (main getenv flt w).files (cstring (pathTarg getenv)) =
      some [0, 0, 0, 0, 0x74, 0x65, 0x73, 0x74] ∧
    fileSize (main getenv flt w) (cstring (pathTarg getenv)) = 8 := by
  obtain ⟨h1, h2, h3, _⟩ := main_ok getenv flt w hopen hseek hwrite
  refine ⟨h1, h2, h3, ?_⟩
  simp [fileSize, h3, expectedBytes]

/-- Witness for C1: the run on the fresh world with `TEST_PATH_TARGET` unset. -/
theorem C1_seek_then_write_result_witness :
    (mainAfterWrite envUnset noFaults freshWorld).written = 4 ∧
    (main envUnset noFaults freshWorld).stdout =
      freshWorld.stdout ++ [createMsg envUnset, ⟨"Wrote %d\n", [Arg.int 4]⟩] ∧
    (main envUnset noFaults freshWorld).files (cstring (pathTarg envUnset)) =
      some [0, 0, 0, 0, 0x74, 0x65, 0x73, 0x74] ∧
    fileSize (main envUnset noFaults freshWorld) (cstring (pathTarg envUnset)) = 8 :=
  C1_seek_then_write_result envUnset noFaults freshWorld (by decide) (by decide) (by decide)

/-- C2. Positioned-write program: in a run in which `create` and `pwrite` succeed,
the program makes `create("testfile", ORDWR, 0754)` and the single call
`pwrite(fd, "test", 4, 4)`, which reports 4; the file is left with size 8 and bytes
`00 00 00 00 74 65 73 74`; and wherever the cursor of the descriptor stands before
`pwrite`, the count and the file are the same and the cursor is not moved. -/
theorem C2_positioned_write_result (flt : Faults) (w : World)
    (hcreate : (main9AfterCreate flt w).fd ≠ -1)
    (hpwrite : (main9AfterPwrite flt w).written ≠ -1) :
    (main9AfterPwrite flt w).written = 4 ∧
    (main9 flt w).stdout = w.stdout ++ [⟨"wrote: %d\n", [Arg.int 4]⟩] ∧
    (main9 flt w).calls = w.calls ++
      [Call.create (cstr "testfile") 0o754 (main9AfterCreate flt w).fd,
       Call.pwrite (main9AfterCreate flt w).fd [0x74, 0x65, 0x73, 0x74] 4 4 4] ∧
    (main9 flt w).files (cstr "testfile") = some [0, 0, 0, 0, 0x74, 0x65, 0x73, 0x74] ∧
    fileSize (main9 flt w) (cstr "testfile") = 8 ∧
    ∀ c : Nat,
      (sys_pwrite flt (setCursor (main9AfterCreate flt w).w (main9AfterCreate flt w).fd c)
        (main9AfterCreate flt w).fd (cstr "test" ++ [0]) 4 4).2 = 4 ∧
      (sys_pwrite flt (setCursor (main9AfterCreate flt w).w (main9AfterCreate flt w).fd c)
        (main9AfterCreate flt w).fd (cstr "test" ++ [0]) 4 4).1.files (cstr "testfile") =
          some [0, 0, 0, 0, 0x74, 0x65, 0x73, 0x74] ∧
      getFd (sys_pwrite flt
        (setCursor (main9AfterCreate flt w).w (main9AfterCreate flt w).fd c)
        (main9AfterCreate flt w).fd (cstr "test" ++ [0]) 4 4).1 (main9AfterCreate flt w).fd =
          some ⟨cstr "testfile", c, true⟩ := by
  obtain ⟨h1, h2, h3, _⟩ := main9_ok flt w hcreate hpwrite
  refine ⟨h1, h2, ?_, h3, by simp [fileSize, h3, expectedBytes], ?_⟩
  · rcases create_cases flt w (cstr "testfile") 0o754 with ⟨fd, m, h⟩ | h
    · simp only [main9, main9AfterPwrite, main9AfterCreate, h] at hcreate hpwrite ⊢
      cases hw : flt.writeFails <;>
        simp [sys_pwrite, writeTarget, logCall, installFd, printf, hw, cstr_test]
          at hcreate hpwrite ⊢
    · simp [main9AfterCreate, h] at hcreate
  · intro c
    rcases create_cases flt w (cstr "testfile") 0o754 with ⟨fd, m, h⟩ | h
    · simp only [main9, main9AfterPwrite, main9AfterCreate, h] at hcreate hpwrite ⊢
      cases hw : flt.writeFails <;>
        simp [sys_pwrite, writeTarget, logCall, installFd, printf, hw, cstr_test, writeAt,
          setCursor] at hcreate hpwrite ⊢
    · simp [main9AfterCreate, h] at hcreate

/-- Witness for C2: the run on the fresh world. -/
theorem C2_positioned_write_result_witness :
    (main9AfterPwrite noFaults freshWorld).written = 4 ∧
    (main9 noFaults freshWorld).files (cstr "testfile") =
      some [0, 0, 0, 0, 0x74, 0x65, 0x73, 0x74] :=
  have h := C2_positioned_write_result noFaults freshWorld (by decide) (by decide)
  ⟨h.1, h.2.2.2.1⟩

/-- C4, as stated, fails: in the run on the fresh world in which `open` fails, the
program goes on to call `lseek` and `write` on the failed descriptor -1 and prints
the count -1. -/
theorem C4_open_failure_not_aborted :
    (mainAfterOpen envUnset ⟨true, false, false⟩ freshWorld).fd = -1 ∧
    Call.lseek (-1) 4 Whence.SEEK_CUR (-1) ∈
      (main envUnset ⟨true, false, false⟩ freshWorld).calls ∧
    Call.write (-1) [0x74, 0x65, 0x73, 0x74] 4 (-1) ∈
      (main envUnset ⟨true, false, false⟩ freshWorld).calls ∧
    (⟨"Wrote %d\n", [Arg.int (-1)]⟩ : Output) ∈
      (main envUnset ⟨true, false, false⟩ freshWorld).stdout := by
  decide

/-- C4, amended. When creating the target fails, neither program stops: the
seek-then-write program still calls `lseek`, `write` and `close` with the failed
descriptor -1 and prints `Wrote -1`; the positioned-write program still calls
`pwrite` with -1 and prints `wrote: -1`.  Every one of those calls fails, so no file
is produced or changed and no descriptor is opened. -/
theorem C4_open_failure_runs_to_end (getenv : CString → Option CString)
    (flt flt9 : Faults) (w w9 : World)
    (hopen : (mainAfterOpen getenv flt w).fd = -1)
    (hcreate : (main9AfterCreate flt9 w9).fd = -1) :
    ((main getenv flt w).calls = w.calls ++
        [Call.open (cstring (pathTarg getenv)) [OFlag.O_RDWR, OFlag.O_CREAT, OFlag.O_TRUNC] (-1),
         Call.lseek (-1) 4 Whence.SEEK_CUR (-1),
         Call.write (-1) [0x74, 0x65, 0x73, 0x74] 4 (-1),
         Call.close (-1) (-1)] ∧
      (main getenv flt w).stdout =
        w.stdout ++ [createMsg getenv, ⟨"Wrote %d\n", [Arg.int (-1)]⟩] ∧
      (∀ q, (main getenv flt w).files q = w.files q) ∧
      (∀ n, (main getenv flt w).fds n = w.fds n)) ∧
    ((main9 flt9 w9).calls = w9.calls ++
        [Call.create (cstr "testfile") 0o754 (-1),
         Call.pwrite (-1) [0x74, 0x65, 0x73, 0x74] 4 4 (-1)] ∧
      (main9 flt9 w9).stdout = w9.stdout ++ [⟨"wrote: %d\n", [Arg.int (-1)]⟩] ∧
      (∀ q, (main9 flt9 w9).files q = w9.files q) ∧
      (∀ n, (main9 flt9 w9).fds n = w9.fds n)) := by
  have hfl : [OFlag.O_RDWR, OFlag.O_CREAT, OFlag.O_TRUNC] = mainFlags := rfl
  constructor
  · rcases sys_open_cases flt (printf w "Create, Truncate, and Open %s...\n"
      [Arg.str (cstring (pathTarg getenv))]) (cstring (pathTarg getenv)) with ⟨fd, m, h⟩ | h
    · simp only [mainAfterOpen, hfl, h] at hopen
      omega
    · simp only [main, mainAfterWrite, mainAfterLseek, mainAfterOpen, hfl, h]
      simp [sys_lseek, lseekResult, sys_write, writeTarget, sys_close, logCall, printf,
        cstr_test, getFd_neg_one, createMsg, mainFlags]
  · rcases create_cases flt9 w9 (cstr "testfile") 0o754 with ⟨fd, m, h⟩ | h
    · simp only [main9AfterCreate, h] at hcreate
      omega
    · simp only [main9, main9AfterPwrite, main9AfterCreate, h]
      simp [sys_pwrite, writeTarget, logCall, printf, cstr_test, getFd_neg_one]

/-- Witness for C4 (amended): both programs on the fresh world with `open`/`create`
failing. -/
theorem C4_open_failure_runs_to_end_witness :
    (mainAfterOpen envUnset ⟨true, false, false⟩ freshWorld).fd = -1 ∧
    (main9AfterCreate ⟨true, false, false⟩ freshWorld).fd = -1 ∧
    (main envUnset ⟨true, false, false⟩ freshWorld).stdout =
      freshWorld.stdout ++ [createMsg envUnset, ⟨"Wrote %d\n", [Arg.int (-1)]⟩] ∧
    (main9 ⟨true, false, false⟩ freshWorld).stdout =
      freshWorld.stdout ++ [⟨"wrote: %d\n", [Arg.int (-1)]⟩] :=
  have h := C4_open_failure_runs_to_end envUnset ⟨true, false, false⟩ ⟨true, false, false⟩
    freshWorld freshWorld (by decide) (by decide)
  ⟨by decide, by decide, h.1.2.1, h.2.2.1⟩

/-- C5, as stated, fails: in the run on the fresh world in which `lseek` reports an
error and `write` succeeds, the payload is written at offset 0 instead of 4 and the
successful count 4 is reported. -/
theorem C5_failed_lseek_still_writes :
    (mainAfterLseek envUnset ⟨false, true, false⟩ freshWorld).pos = -1 ∧
    (mainAfterWrite envUnset ⟨false, true, false⟩ freshWorld).written = 4 ∧
    (⟨"Wrote %d\n", [Arg.int 4]⟩ : Output) ∈
      (main envUnset ⟨false, true, false⟩ freshWorld).stdout ∧
    (main envUnset ⟨false, true, false⟩ freshWorld).files (cstr "testfile") =
      some [0x74, 0x65, 0x73, 0x74] := by
  decide

/-- C5, amended. The program always calls `write` after `lseek`, whatever `lseek`
returned, and prints the value `write` returned.  In every run in which `write`
reports an error, the count printed is -1 and no file is changed after `open`.  An
error from `lseek` is ignored: when `open` succeeded, `lseek` failed and `write`
succeeded, the payload is written at the unmoved cursor, offset 0, and the count 4
is printed. -/
theorem C5_write_result_is_reported (getenv : CString → Option CString) (flt : Faults)
    (w : World) :
    (∃ pos, (main getenv flt w).calls = w.calls ++
        [Call.open (cstring (pathTarg getenv)) [OFlag.O_RDWR, OFlag.O_CREAT, OFlag.O_TRUNC]
           (mainAfterOpen getenv flt w).fd,
         Call.lseek (mainAfterOpen getenv flt w).fd 4 Whence.SEEK_CUR pos,
         Call.write (mainAfterOpen getenv flt w).fd [0x74, 0x65, 0x73, 0x74] 4
           (mainAfterWrite getenv flt w).written,
         Call.close (mainAfterOpen getenv flt w).fd
           (if (mainAfterOpen getenv flt w).fd = -1 then -1 else 0)]) ∧
    (main getenv flt w).stdout = w.stdout ++
      [createMsg getenv, ⟨"Wrote %d\n", [Arg.int (mainAfterWrite getenv flt w).written]⟩] ∧
    ((mainAfterWrite getenv flt w).written = -1 →
      ∀ q, (main getenv flt w).files q = (mainAfterOpen getenv flt w).w.files q) ∧
    ((mainAfterOpen getenv flt w).fd ≠ -1 →
      (mainAfterLseek getenv flt w).pos = -1 →
      (mainAfterWrite getenv flt w).written ≠ -1 →
      (mainAfterWrite getenv flt w).written = 4 ∧
      (main getenv flt w).files (cstring (pathTarg getenv)) =
        some [0x74, 0x65, 0x73, 0x74]) := by
  have hfl : [OFlag.O_RDWR, OFlag.O_CREAT, OFlag.O_TRUNC] = mainFlags := rfl
  rcases sys_open_cases flt (printf w "Create, Truncate, and Open %s...\n"
    [Arg.str (cstring (pathTarg getenv))]) (cstring (pathTarg getenv)) with ⟨fd, m, h⟩ | h
  · simp only [main, mainAfterWrite, mainAfterLseek, mainAfterOpen, hfl, h]
    cases hs : flt.lseekFails <;> cases hw : flt.writeFails <;>
      simp [sys_lseek, lseekResult, sys_write, writeTarget, sys_close, logCall, installFd,
        printf, hs, hw, cstr_test, writeAt, getFd_neg_one, createMsg, mainFlags]
  · simp only [main, mainAfterWrite, mainAfterLseek, mainAfterOpen, hfl, h]
    simp [sys_lseek, lseekResult, sys_write, writeTarget, sys_close, logCall, printf,
      cstr_test, getFd_neg_one, createMsg, mainFlags]

/-- Witness for C5 (amended): a run with a failing `write` and a run with a failing
`lseek`, both on the fresh world. -/
theorem C5_write_result_is_reported_witness :
    (mainAfterWrite envUnset ⟨false, false, true⟩ freshWorld).written = -1 ∧
    (main envUnset ⟨false, false, true⟩ freshWorld).files (cstr "testfile") =
      (mainAfterOpen envUnset ⟨false, false, true⟩ freshWorld).w.files (cstr "testfile") ∧
    (mainAfterLseek envUnset ⟨false, true, false⟩ freshWorld).pos = -1 ∧
    ((mainAfterWrite envUnset ⟨false, true, false⟩ freshWorld).written = 4 ∧
      (main envUnset ⟨false, true, false⟩ freshWorld).files (cstring (pathTarg envUnset)) =
        some [0x74, 0x65, 0x73, 0x74]) :=
  ⟨by decide,
   (C5_write_result_is_reported envUnset ⟨false, false, true⟩ freshWorld).2.2.1 (by decide)
     (cstr "testfile"),
   by decide,
   (C5_write_result_is_reported envUnset ⟨false, true, false⟩ freshWorld).2.2.2
     (by decide) (by decide) (by decide)⟩

/-- C6, as stated, fails for the positioned-write program: in its run on the fresh
world `create` returns descriptor 3, no `close` is called, and descriptor 3 is still
open when `main` returns. -/
theorem C6_plan9_descriptor_left_open :
    (main9AfterCreate noFaults freshWorld).fd = 3 ∧
    (main9 noFaults freshWorld).calls =
      [Call.create (cstr "testfile") 0o754 3, Call.pwrite 3 [0x74, 0x65, 0x73, 0x74] 4 4 4] ∧
    getFd (main9 noFaults freshWorld) 3 = some ⟨cstr "testfile", 0, true⟩ := by
  decide

/-- C6, amended. In the seek-then-write program, whenever `open` returned a
descriptor, `close(fd)` is the last call on the single exit path, whatever `lseek`
and `write` returned, and the descriptor is not open when `main` returns.  The
positioned-write program never calls `close`: after `create` and `pwrite` it returns
with the descriptor still open. -/
theorem C6_descriptor_at_exit (getenv : CString → Option CString) (flt flt9 : Faults)
    (w w9 : World)
    (hopen : (mainAfterOpen getenv flt w).fd ≠ -1)
    (hcreate : (main9AfterCreate flt9 w9).fd ≠ -1) :
    (main getenv flt w).calls.getLast? = some (Call.close (mainAfterOpen getenv flt w).fd 0) ∧
    getFd (main getenv flt w) (mainAfterOpen getenv flt w).fd = none ∧
    (main9 flt9 w9).calls = w9.calls ++
      [Call.create (cstr "testfile") 0o754 (main9AfterCreate flt9 w9).fd,
       Call.pwrite (main9AfterCreate flt9 w9).fd [0x74, 0x65, 0x73, 0x74] 4 4
         (main9AfterPwrite flt9 w9).written] ∧
    getFd (main9 flt9 w9) (main9AfterCreate flt9 w9).fd =
      some ⟨cstr "testfile", 0, true⟩ := by
  have hfl : [OFlag.O_RDWR, OFlag.O_CREAT, OFlag.O_TRUNC] = mainFlags := rfl
  refine ⟨?_, ?_, ?_, ?_⟩
  · rcases sys_open_cases flt (printf w "Create, Truncate, and Open %s...\n"
      [Arg.str (cstring (pathTarg getenv))]) (cstring (pathTarg getenv)) with ⟨fd, m, h⟩ | h
    · simp only [main, mainAfterWrite, mainAfterLseek, mainAfterOpen, hfl, h]
      cases hs : flt.lseekFails <;> cases hw : flt.writeFails <;>
        simp [sys_lseek, lseekResult, sys_write, writeTarget, sys_close, logCall, installFd,
          printf, hs, hw, cstr_test]
    · simp [mainAfterOpen, hfl, h] at hopen
  · rcases sys_open_cases flt (printf w "Create, Truncate, and Open %s...\n"
      [Arg.str (cstring (pathTarg getenv))]) (cstring (pathTarg getenv)) with ⟨fd, m, h⟩ | h
    · simp only [main, mainAfterWrite, mainAfterLseek, mainAfterOpen, hfl, h]
      cases hs : flt.lseekFails <;> cases hw : flt.writeFails <;>
        simp [sys_lseek, lseekResult, sys_write, writeTarget, sys_close, logCall, installFd,
          printf, hs, hw, cstr_test]
    · simp [mainAfterOpen, hfl, h] at hopen
  · rcases create_cases flt9 w9 (cstr "testfile") 0o754 with ⟨fd, m, h⟩ | h
    · simp only [main9, main9AfterPwrite, main9AfterCreate, h]
      cases hw : flt9.writeFails <;>
        simp [sys_pwrite, writeTarget, logCall, installFd, printf, hw, cstr_test]
    · simp [main9AfterCreate, h] at hcreate
  · rcases create_cases flt9 w9 (cstr "testfile") 0o754 with ⟨fd, m, h⟩ | h
    · simp only [main9, main9AfterPwrite, main9AfterCreate, h]
      cases hw : flt9.writeFails <;>
        simp [sys_pwrite, writeTarget, logCall, installFd, printf, hw, cstr_test]
    · simp [main9AfterCreate, h] at hcreate

/-- Witness for C6 (amended): both programs on the fresh world. -/
theorem C6_descriptor_at_exit_witness :
    (mainAfterOpen envUnset noFaults freshWorld).fd ≠ -1 ∧
    (main9AfterCreate noFaults freshWorld).fd ≠ -1 ∧
    getFd (main envUnset noFaults freshWorld) (mainAfterOpen envUnset noFaults freshWorld).fd =
      none ∧
    getFd (main9 noFaults freshWorld) (main9AfterCreate noFaults freshWorld).fd =
      some ⟨cstr "testfile", 0, true⟩ :=
  have h := C6_descriptor_at_exit envUnset noFaults noFaults freshWorld freshWorld
    (by decide) (by decide)
  ⟨by decide, by decide, h.2.1, h.2.2.2⟩

/-- C7 at a failing pair of runs.  The program is run twice in succession, with no
injected failure, in a directory where `testfile` does not exist yet.  The first run
creates the file, prints `Wrote 4` and leaves `00 00 00 00 74 65 73 74`; because
`open` was given no permission argument the file is created with the stray value,
here mode 000.  In the second run `open` is refused on that file and returns -1,
and the program prints `Wrote -1`: the count is not the same both times.  With 0644
as stray value, or on a `testfile` that already existed with mode 644, the same two
runs both print `Wrote 4`. -/
theorem C7_second_run_fails :
    (mainAfterWrite envUnset noFaults freshWorld).written = 4 ∧
    (main envUnset noFaults freshWorld).files (cstr "testfile") =
      some [0, 0, 0, 0, 0x74, 0x65, 0x73, 0x74] ∧
    (main envUnset noFaults freshWorld).modes (cstr "testfile") = 0 ∧
    (mainAfterOpen envUnset noFaults (main envUnset noFaults freshWorld)).fd = -1 ∧
    (mainAfterWrite envUnset noFaults (main envUnset noFaults freshWorld)).written = -1 ∧
    (main envUnset noFaults (main envUnset noFaults freshWorld)).stdout =
      [createMsg envUnset, ⟨"Wrote %d\n", [Arg.int 4]⟩,
       createMsg envUnset, ⟨"Wrote %d\n", [Arg.int (-1)]⟩] ∧
    (main envUnset noFaults (main envUnset noFaults (worldWithStray 0o644))).stdout =
      [createMsg envUnset, ⟨"Wrote %d\n", [Arg.int 4]⟩,
       createMsg envUnset, ⟨"Wrote %d\n", [Arg.int 4]⟩] ∧
    (main envUnset noFaults (main envUnset noFaults
        (worldWith (cstr "testfile") [1, 2, 3, 4, 5, 6, 7, 8, 9, 10]))).stdout =
      [createMsg envUnset, ⟨"Wrote %d\n", [Arg.int 4]⟩,
       createMsg envUnset, ⟨"Wrote %d\n", [Arg.int 4]⟩] := by
  decide

/-- C8. Default path: when `TEST_PATH_TARGET` is unset, the path `main` passes to
`open` is exactly `testfile`; the positioned-write program passes `testfile` to
`create`. -/
theorem C8_default_path (getenv : CString → Option CString) (flt flt9 : Faults)
    (w w9 : World) (hunset : getenv (cstr "TEST_PATH_TARGET") = none) :
    cstring (pathTarg getenv) = cstr "testfile" ∧
    (mainAfterOpen getenv flt w).w.calls = w.calls ++
      [Call.open (cstr "testfile") [OFlag.O_RDWR, OFlag.O_CREAT, OFlag.O_TRUNC]
        (mainAfterOpen getenv flt w).fd] ∧
    (main9AfterCreate flt9 w9).w.calls = w9.calls ++
      [Call.create (cstr "testfile") 0o754 (main9AfterCreate flt9 w9).fd] := by
  have hfl : [OFlag.O_RDWR, OFlag.O_CREAT, OFlag.O_TRUNC] = mainFlags := rfl
  have hp : cstring (pathTarg getenv) = cstr "testfile" := by
    simp only [pathTarg, hunset]
    decide
  refine ⟨hp, ?_, ?_⟩
  · rw [← hp]
    rcases sys_open_cases flt (printf w "Create, Truncate, and Open %s...\n"
      [Arg.str (cstring (pathTarg getenv))]) (cstring (pathTarg getenv)) with ⟨fd, m, h⟩ | h
    · simp only [mainAfterOpen, hfl, h]
      simp [logCall, installFd, printf]
    · simp only [mainAfterOpen, hfl, h]
      simp [logCall, printf]
  · rcases create_cases flt9 w9 (cstr "testfile") 0o754 with ⟨fd, m, h⟩ | h
    · simp only [main9AfterCreate, h]
      simp [logCall, installFd]
    · simp only [main9AfterCreate, h]
      simp [logCall]

/-- Witness for C8: the environment in which nothing is set. -/
theorem C8_default_path_witness :
    envUnset (cstr "TEST_PATH_TARGET") = none ∧
    cstring (pathTarg envUnset) = cstr "testfile" :=
  ⟨rfl, (C8_default_path envUnset noFaults noFaults freshWorld freshWorld rfl).1⟩

/-- C9. Resize happens at `write`, not at `lseek`: in a run of the seek-then-write
program in which `open`, `lseek` and `write` succeed, after `open` the file is empty
and the cursor is 0; after `lseek(fd, 4, SEEK_CUR)` every file is as `open` left it
(the target still has size 0), every other descriptor is untouched and the cursor
is 4; after `write` the target is 8 bytes long. -/
theorem C9_resize_at_write (getenv : CString → Option CString) (flt : Faults) (w : World)
    (hopen : (mainAfterOpen getenv flt w).fd ≠ -1)
    (hseek : (mainAfterLseek getenv flt w).pos ≠ -1)
    (hwrite : (mainAfterWrite getenv flt w).written ≠ -1) :
    (mainAfterOpen getenv flt w).w.files (cstring (pathTarg getenv)) = some [] ∧
    getFd (mainAfterOpen getenv flt w).w (mainAfterOpen getenv flt w).fd =
      some ⟨cstring (pathTarg getenv), 0, true⟩ ∧
    (mainAfterLseek getenv flt w).pos = 4 ∧
    (∀ q, (mainAfterLseek getenv flt w).w.files q = (mainAfterOpen getenv flt w).w.files q) ∧
    fileSize (mainAfterLseek getenv flt w).w (cstring (pathTarg getenv)) = 0 ∧
    getFd (mainAfterLseek getenv flt w).w (mainAfterOpen getenv flt w).fd =
      some ⟨cstring (pathTarg getenv), 4, true⟩ ∧
    (∀ n : Nat, (n : Int) ≠ (mainAfterOpen getenv flt w).fd →
      (mainAfterLseek getenv flt w).w.fds n = (mainAfterOpen getenv flt w).w.fds n) ∧
    fileSize (mainAfterWrite getenv flt w).w (cstring (pathTarg getenv)) = 8 ∧
    (mainAfterWrite getenv flt w).w.files (cstring (pathTarg getenv)) =
      some [0, 0, 0, 0, 0x74, 0x65, 0x73, 0x74] := by
  have hfl : [OFlag.O_RDWR, OFlag.O_CREAT, OFlag.O_TRUNC] = mainFlags := rfl
  rcases sys_open_cases flt (printf w "Create, Truncate, and Open %s...\n"
    [Arg.str (cstring (pathTarg getenv))]) (cstring (pathTarg getenv)) with ⟨fd, m, h⟩ | h
  · simp only [mainAfterWrite, mainAfterLseek, mainAfterOpen, hfl, h]
      at hopen hseek hwrite ⊢
    cases hs : flt.lseekFails <;> cases hw : flt.writeFails <;>
      simp [sys_lseek, lseekResult, sys_write, writeTarget, logCall, installFd,
        printf, hs, hw, cstr_test, writeAt, getFd_neg_one, fileSize]
        at hopen hseek hwrite ⊢
    intro n hn
    simp [upd, hn]
  · simp [mainAfterOpen, hfl, h] at hopen

/-- Witness for C9: the run on the fresh world. -/
theorem C9_resize_at_write_witness :
    fileSize (mainAfterLseek envUnset noFaults freshWorld).w (cstring (pathTarg envUnset)) = 0 ∧
    (mainAfterLseek envUnset noFaults freshWorld).pos = 4 ∧
    fileSize (mainAfterWrite envUnset noFaults freshWorld).w (cstring (pathTarg envUnset)) = 8 :=
  have h := C9_resize_at_write envUnset noFaults freshWorld (by decide) (by decide) (by decide)
  ⟨h.2.2.2.2.1, h.2.2.1, h.2.2.2.2.2.2.2.1⟩

/-! ## The path buffer -/

/-- Bytes without a NUL, followed by NUL padding and one more NUL, read back as the
C string made of those bytes. -/
theorem cstring_padded (a : List Byte) (k : Nat) (ha : ∀ b ∈ a, b ≠ 0) :
    cstring (a ++ List.replicate k 0 ++ [0]) = a := by
  induction a with
  | nil => cases k <;> simp [cstring, List.replicate_succ]
  | cons x xs ih =>
    have hx : x ≠ 0 := ha x (by simp)
    have hxs : ∀ b ∈ xs, b ≠ 0 := fun b hb => ha b (by simp [hb])
    have := ih hxs
    simp only [cstring, List.append_assoc] at this ⊢
    simp [List.takeWhile_cons, hx, this]

/-- C `strncpy` writes exactly the first `n` bytes of the destination. -/
theorem strncpy_drop (dest : List Byte) (src : CString) (n : Nat) :
    (strncpy dest src n).drop n = dest.drop n := by
  unfold strncpy
  apply List.drop_left'
  simp
  omega

/-- The path buffer when `TEST_PATH_TARGET` has the value `v`. -/
theorem pathTarg_set (getenv : CString → Option CString) (v : CString)
    (hset : getenv (cstr "TEST_PATH_TARGET") = some v) :
    pathTarg getenv = v.take 1023 ++ List.replicate (1023 - v.length) 0 ++ [0] := by
  simp only [pathTarg, hset, pathBufferSize, strncpy, List.drop_replicate]
  rfl

/-- C10. Supplied-path copying is bounded: for every value `v` of `TEST_PATH_TARGET`
(a C string, so without NUL bytes), the path passed to `open` is the first
`min (length v) 1023` bytes of `v`; the buffer keeps its 1024 bytes, the copy leaves
everything from index 1023 on as it was, so index 1023 stays 0 and the path is
NUL-terminated inside the buffer; the path equals `v` when `length v <= 1023`; and
for the empty value the path is empty, not the default `testfile`. -/
theorem C10_supplied_path_bounded (getenv : CString → Option CString) (flt : Faults)
    (w : World) (v : CString)
    (hset : getenv (cstr "TEST_PATH_TARGET") = some v)
    (hv : ∀ b ∈ v, b ≠ 0) :
    cstring (pathTarg getenv) = v.take (min v.length 1023) ∧
    (mainAfterOpen getenv flt w).w.calls = w.calls ++
      [Call.open (v.take (min v.length 1023)) [OFlag.O_RDWR, OFlag.O_CREAT, OFlag.O_TRUNC]
        (mainAfterOpen getenv flt w).fd] ∧
    (pathTarg getenv).length = pathBufferSize ∧
    (pathTarg getenv).drop 1023 = (List.replicate pathBufferSize 0).drop 1023 ∧
    (pathTarg getenv)[1023]? = some 0 ∧
    (cstring (pathTarg getenv)).length ≤ 1023 ∧
    (pathTarg getenv)[(cstring (pathTarg getenv)).length]? = some 0 ∧
    (v.length ≤ 1023 → cstring (pathTarg getenv) = v) ∧
    (v = [] → cstring (pathTarg getenv) = [] ∧ cstring (pathTarg getenv) ≠ cstr "testfile") := by
  have hfl : [OFlag.O_RDWR, OFlag.O_CREAT, OFlag.O_TRUNC] = mainFlags := rfl
  have hbuf := pathTarg_set getenv v hset
  have htake : ∀ b ∈ v.take 1023, b ≠ 0 := fun b hb => hv b (List.mem_of_mem_take hb)
  have hmin : v.take (min v.length 1023) = v.take 1023 := by
    rcases Nat.le_total v.length 1023 with h | h
    · rw [Nat.min_eq_left h, List.take_of_length_le h, List.take_of_length_le (le_refl _)]
    · rw [Nat.min_eq_right h]
  have hp : cstring (pathTarg getenv) = v.take 1023 := by
    rw [hbuf]
    exact cstring_padded _ _ htake
  have hlen : (pathTarg getenv).length = 1024 := by
    rw [hbuf]
    simp
    omega
  have hdrop : (pathTarg getenv).drop 1023 = (List.replicate pathBufferSize 0).drop 1023 := by
    simp only [pathTarg, hset, pathBufferSize]
    exact strncpy_drop _ _ _
  have hlast : (pathTarg getenv)[1023]? = some 0 := by
    have h1 : ((pathTarg getenv).drop 1023)[0]? = some 0 := by
      rw [hdrop, pathBufferSize, List.drop_replicate]
      rfl
    simpa using h1
  have hterm : (pathTarg getenv)[(v.take 1023).length]? = some 0 := by
    rw [hbuf, List.append_assoc, List.getElem?_append_right (le_refl _)]
    cases (1023 - v.length) <;> simp [List.replicate_succ]
  refine ⟨by rw [hp, hmin], ?_, by rw [hlen, pathBufferSize], hdrop, hlast, ?_, ?_, ?_, ?_⟩
  · rw [hmin, ← hp]
    rcases sys_open_cases flt (printf w "Create, Truncate, and Open %s...\n"
      [Arg.str (cstring (pathTarg getenv))]) (cstring (pathTarg getenv)) with ⟨fd, m, h⟩ | h
    · simp only [mainAfterOpen, hfl, h]
      simp [logCall, installFd, printf]
    · simp only [mainAfterOpen, hfl, h]
      simp [logCall, printf]
  · rw [hp]
    simp
  · rw [hp]
    exact hterm
  · intro hle
    rw [hp, List.take_of_length_le hle]
  · intro hnil
    rw [hp, hnil]
    exact ⟨rfl, by decide⟩

/-- Witness for C10: `TEST_PATH_TARGET` set to `abc`. -/
theorem C10_supplied_path_bounded_witness :
    envSet [97, 98, 99] (cstr "TEST_PATH_TARGET") = some [97, 98, 99] ∧
    cstring (pathTarg (envSet [97, 98, 99])) =
      List.take (min (List.length ([97, 98, 99] : CString)) 1023) [97, 98, 99] :=
  ⟨by decide,
   (C10_supplied_path_bounded (envSet [97, 98, 99]) noFaults freshWorld [97, 98, 99]
     (by decide) (by decide)).1⟩

end WriteShenanigans
